import Mathlib

/-!
Shallow embedding of `src/projects/core/src/feature-flag.can-match.guard.ts`
(the `canMatchFeatureFlag` guard of ngx-flagr) together with theorems about
its externally observable behaviour.

The guard reads a feature-flag value from the route's metadata bag, and
either returns `config.routing.validIfNone` (no flag), throws (invalid
flag), or consults the flag service and possibly substitutes a redirect
URL for a disabled flag.

JavaScript values that flow through the guard (metadata entries, redirect
targets) are modelled by `JSValue`, with JS truthiness as `JSValue.truthy`.
Effects (the dev-mode `console.warn`, the `isEnabled` call, the `parseUrl`
call) are recorded in an event trace, in the order the source performs
them; a thrown `Error` becomes `Except.error` carrying the message built
at the corresponding `throw` site.
-/

namespace NgxFlagr

/-- A JavaScript value as far as the guard observes one: the guard only
needs truthiness, string coercion (for error messages) and identity. JS
numbers are modelled as integers (`0` falsy); `obj` stands for any other
(always truthy) object, distinguished by an id. -/
inductive JSValue where
  | undefined : JSValue
  | null : JSValue
  | bool (b : Bool) : JSValue
  | num (n : Int) : JSValue
  | str (s : String) : JSValue
  | obj (id : Nat) : JSValue
deriving DecidableEq, Repr

namespace JSValue

/-- JS truthiness: `undefined`, `null`, `false`, `0`, `""` are falsy;
everything else the guard can see is truthy. -/
def truthy : JSValue → Bool
  | .undefined => false
  | .null => false
  | .bool b => b
  | .num n => n != 0
  | .str s => !s.isEmpty
  | .obj _ => true

/-- JS string coercion, as used by the template literal in the
`ConfigurationError` message (`${featureFlag}`). -/
def toJSString : JSValue → String
  | .undefined => "undefined"
  | .null => "null"
  | .bool b => if b then "true" else "false"
  | .num n => toString n
  | .str s => s
  | .obj _ => "[object Object]"

/-- JS `a || b`: the left operand if truthy, otherwise the right one.
Used by the source for
`route.data?.[keys.redirectToIfDisabled] || routing.redirectToIfDisabled`. -/
def jsOr (a b : JSValue) : JSValue :=
  if a.truthy then a else b

end JSValue

/-- The `keys` sub-object of the routing configuration.
Modelled from the spec: the `CONFIGURATION` token's type is declared in
`./tokens` / the configuration module, which is not under `src/`; §3 of
the spec names the two metadata keys. -/
structure RoutingKeys where
  featureFlag : String
  redirectToIfDisabled : String
deriving DecidableEq, Repr

/-- The `routing` part of the injected configuration.
Modelled from the spec: §3 (`RoutingConfiguration`) — the defining module
is not under `src/`; the guard reads exactly these four fields. The
default redirect target is a `JSValue` so that JS truthiness of the `||`
fallback is preserved. -/
structure RoutingConfig where
  keys : RoutingKeys
  validIfNone : Bool
  redirectToIfDisabled : JSValue
deriving DecidableEq, Repr

/-- An Angular `Route` as far as the guard reads it: a `path` and an
optional free-form metadata bag `data` (absent `data` is `undefined` in
JS; a missing key reads as `undefined`). -/
structure Route where
  path : String
  data : Option (List (String × JSValue))
deriving DecidableEq, Repr

/-- `route.data?.[key]`: `undefined` when `data` is absent or the key is
missing, the stored value otherwise. -/
def Route.dataGet (route : Route) (key : String) : JSValue :=
  match route.data with
  | none => .undefined
  | some bag => (bag.lookup key).getD .undefined

/-- An Angular `UrlTree`, opaque to the guard; we keep the source string
the router parsed so that distinct parses are distinguishable. -/
structure UrlTree where
  source : JSValue
deriving DecidableEq, Repr

/-- The runtime shape of `FeatureFlagService#isEnabled`'s return value,
as the source discriminates it: a boolean, a `Promise` resolving to a
boolean, an `Observable` emitting a boolean, or any other value
(`other`), which violates the service contract. -/
inductive IsEnabledResult where
  | bool (b : Bool) : IsEnabledResult
  | promise (b : Bool) : IsEnabledResult
  | observable (b : Bool) : IsEnabledResult
  | other (v : JSValue) : IsEnabledResult
deriving DecidableEq, Repr

/-- A synchronous navigation decision: a boolean or a `UrlTree`. -/
inductive SyncDecision where
  | bool (b : Bool) : SyncDecision
  | url (u : UrlTree) : SyncDecision
deriving DecidableEq, Repr

/-- The guard's return value, tagged by synchronicity class: `now` is a
value returned synchronously, `promise` a `Promise` resolving to the
value, `observable` an `Observable` emitting it, and `raw v` the guard
passing an out-of-contract service result `v` through unchanged. -/
inductive Decision where
  | now (v : SyncDecision) : Decision
  | promise (v : SyncDecision) : Decision
  | observable (v : SyncDecision) : Decision
  | raw (v : JSValue) : Decision
deriving DecidableEq, Repr

/-- The two `throw new Error(...)` sites of the guard, with the message
each builds: `configError` for an invalid feature flag,
`unhandledError` for an out-of-contract `isEnabled` result. -/
inductive GuardError where
  | configError (msg : String) : GuardError
  | unhandledError (msg : String) : GuardError
deriving DecidableEq, Repr

/-- Observable side effects of one guard invocation, in program order:
the dev-mode `console.warn`, the `FeatureFlagService#isEnabled` call,
and the `Router#parseUrl` call. -/
inductive Event where
  | warn (msg : String) : Event
  | isEnabledCall (flag : JSValue) : Event
  | parseUrlCall (target : JSValue) : Event
deriving DecidableEq, Repr

namespace Event

/-- Is this event the diagnostic `console.warn`? -/
def isWarn : Event → Bool
  | .warn _ => true
  | _ => false

/-- Is this event a `FeatureFlagService#isEnabled` call? -/
def isServiceCall : Event → Bool
  | .isEnabledCall _ => true
  | _ => false

/-- Is this event a `Router#parseUrl` call? -/
def isParseUrl : Event → Bool
  | .parseUrlCall _ => true
  | _ => false

end Event

/-- `isEnabled` returned with no redirect configured: the source's
`return isEnabled;` — the value is passed through unchanged, preserving
its synchronicity class (and, for an out-of-contract shape, the raw
value itself). -/
def passThrough : IsEnabledResult → Decision
  | .bool b => .now (.bool b)
  | .promise b => .promise (.bool b)
  | .observable b => .observable (.bool b)
  | .other v => .raw v

/-- `result || redirectTo` applied to a boolean service result: `true`
passes through, `false` becomes the parsed redirect `UrlTree`. This is
the substitution the source applies in each of the three handled
branches. -/
def orRedirect (b : Bool) (redirectTo : UrlTree) : SyncDecision :=
  if b then .bool true else .url redirectTo

/-- Shallow embedding of `canMatchFeatureFlag`
(`src/projects/core/src/feature-flag.can-match.guard.ts`). Ambient
injections become parameters: `cfg` for `inject(CONFIGURATION).routing`,
`isFeatureFlag` for the predicate imported from `./feature-flag` (its
definition is not under `src/`, so it stays an arbitrary predicate),
`svc` for `inject(FEATURE_FLAG_SERVICE).isEnabled`, `parseUrl` for
`inject(Router).parseUrl`, and `dev` for `isDevMode()`. The result pairs
the returned decision (or thrown error) with the trace of side effects
in program order. -/
def canMatchFeatureFlag (cfg : RoutingConfig) (isFeatureFlag : JSValue → Bool)
    (svc : JSValue → IsEnabledResult) (parseUrl : JSValue → UrlTree)
    (dev : Bool) (route : Route) : Except GuardError Decision × List Event :=
  let featureFlag := route.dataGet cfg.keys.featureFlag
  if !featureFlag.truthy then
    let warnTrace :=
      if dev && !cfg.validIfNone then
        [Event.warn ("Route " ++ route.path ++
          " does not have a feature flag specified")]
      else []
    (.ok (.now (.bool cfg.validIfNone)), warnTrace)
  else if !isFeatureFlag featureFlag then
    (.error (.configError ("Route " ++ route.path ++
      " has an invalid feature flag: " ++ featureFlag.toJSString)), [])
  else
    let isEnabled := svc featureFlag
    let redirectToIfDisabled :=
      (route.dataGet cfg.keys.redirectToIfDisabled).jsOr
        cfg.redirectToIfDisabled
    if !redirectToIfDisabled.truthy then
      (.ok (passThrough isEnabled), [Event.isEnabledCall featureFlag])
    else
      let redirectTo := parseUrl redirectToIfDisabled
      let trace := [Event.isEnabledCall featureFlag,
        Event.parseUrlCall redirectToIfDisabled]
      match isEnabled with
      | .bool b => (.ok (.now (orRedirect b redirectTo)), trace)
      | .promise b => (.ok (.promise (orRedirect b redirectTo)), trace)
      | .observable b => (.ok (.observable (orRedirect b redirectTo)), trace)
      | .other _ =>
        (.error (.unhandledError
          "Unhandled return type of `FeatureFlagService#isEnabled`"), trace)

/-- `true` iff no `console.warn` event occurs after an `isEnabled` call
in the trace — i.e. every emitted diagnostic log strictly precedes every
flag-service call. -/
def noWarnAfterServiceCall : List Event → Bool
  | [] => true
  | .isEnabledCall _ :: rest => rest.all (fun e => !e.isWarn)
  | _ :: rest => noWarnAfterServiceCall rest

/-! Concrete fixtures used by witness and counterexample theorems. -/

/-- Metadata key names used by the concrete configurations. -/
def keysA : RoutingKeys := ⟨"flag", "redirect"⟩

/-- Configuration with `validIfNone = true` and no default redirect. -/
def cfgA : RoutingConfig := ⟨keysA, true, .undefined⟩

/-- Configuration with `validIfNone = false` and a default redirect. -/
def cfgB : RoutingConfig := ⟨keysA, false, .str "/fallback"⟩

/-- A concrete `isFeatureFlag` predicate recognising only `"beta"`. -/
def isBeta : JSValue → Bool := fun v => v == .str "beta"

/-- A concrete router whose `parseUrl` wraps its argument. -/
def idUrl : JSValue → UrlTree := fun v => ⟨v⟩

/-- A route with no `data` bag at all. -/
def routeNoData : Route := ⟨"home", none⟩

/-- A route declaring the valid flag `"beta"` and no per-route redirect. -/
def routeBeta : Route := ⟨"beta-page", some [("flag", .str "beta")]⟩

/-- A route declaring the valid flag `"beta"` and a per-route redirect. -/
def routeBetaRedirect : Route :=
  ⟨"beta-page", some [("flag", .str "beta"), ("redirect", .str "/upgrade")]⟩

/-- A route declaring the unrecognised flag value `"xyz"`. -/
def routeXyz : Route := ⟨"bad", some [("flag", .str "xyz")]⟩

/-- A flag service returning a constant boolean. -/
def svcBool (b : Bool) : JSValue → IsEnabledResult := fun _ => .bool b

/-- A flag service returning a `Promise` of a constant boolean. -/
def svcPromise (b : Bool) : JSValue → IsEnabledResult := fun _ => .promise b

/-- A flag service returning an out-of-contract value (a string). -/
def svcOtherBoom : JSValue → IsEnabledResult := fun _ => .other (.str "boom")

/-! Theorems: one per claim of the specification, plus witnesses. -/

/-- C1: for every route whose metadata bag has no value (or a falsy
value) under the configured feature-flag key, the guard returns
`config.routing.validIfNone` synchronously (`Decision.now`) and never
invokes the flag-evaluation service in that invocation (the trace
contains no `isEnabledCall` event). -/
theorem noFlag_returns_validIfNone_sync (cfg : RoutingConfig)
    (isFF : JSValue → Bool) (svc : JSValue → IsEnabledResult)
    (parseUrl : JSValue → UrlTree) (dev : Bool) (route : Route)
    (h : (route.dataGet cfg.keys.featureFlag).truthy = false) :
    (canMatchFeatureFlag cfg isFF svc parseUrl dev route).1
        = .ok (.now (.bool cfg.validIfNone)) ∧
      (canMatchFeatureFlag cfg isFF svc parseUrl dev route).2.all
        (fun e => !e.isServiceCall) = true := by
  constructor
  · simp [canMatchFeatureFlag, h]
  · simp only [canMatchFeatureFlag, h, Bool.not_false, if_true]
    split <;> simp [Event.isServiceCall]

/-- Witness for C1: the no-`data` route under `cfgA`. -/
theorem noFlag_returns_validIfNone_sync_w :
    (routeNoData.dataGet cfgA.keys.featureFlag).truthy = false ∧
      ((canMatchFeatureFlag cfgA isBeta (svcBool true) idUrl true
            routeNoData).1 = .ok (.now (.bool cfgA.validIfNone)) ∧
        (canMatchFeatureFlag cfgA isBeta (svcBool true) idUrl true
            routeNoData).2.all (fun e => !e.isServiceCall) = true) :=
  ⟨by decide,
    noFlag_returns_validIfNone_sync cfgA isBeta (svcBool true) idUrl true
      routeNoData (by decide)⟩

/-- C2: for every route whose feature-flag metadata value is present
(truthy) but fails the `isFeatureFlag` predicate, the guard throws a
synchronous error whose message is exactly
`"Route <path> has an invalid feature flag: <value>"` — which contains
both the route's path and the (string-coerced) invalid value — and its
effect trace is empty, so the flag-evaluation service is never consulted
in that invocation. -/
theorem invalidFlag_configError_before_service (cfg : RoutingConfig)
    (isFF : JSValue → Bool) (svc : JSValue → IsEnabledResult)
    (parseUrl : JSValue → UrlTree) (dev : Bool) (route : Route)
    (ht : (route.dataGet cfg.keys.featureFlag).truthy = true)
    (hv : isFF (route.dataGet cfg.keys.featureFlag) = false) :
    (canMatchFeatureFlag cfg isFF svc parseUrl dev route).1
        = .error (.configError ("Route " ++ route.path ++
          " has an invalid feature flag: " ++
          (route.dataGet cfg.keys.featureFlag).toJSString)) ∧
      (canMatchFeatureFlag cfg isFF svc parseUrl dev route).2 = [] := by
  simp [canMatchFeatureFlag, ht, hv]

/-- Witness for C2: the route declaring `"xyz"`, which `isBeta`
rejects. -/
theorem invalidFlag_configError_before_service_w :
    (routeXyz.dataGet cfgA.keys.featureFlag).truthy = true ∧
      isBeta (routeXyz.dataGet cfgA.keys.featureFlag) = false ∧
      ((canMatchFeatureFlag cfgA isBeta (svcBool true) idUrl false
            routeXyz).1 = .error (.configError ("Route " ++ routeXyz.path ++
              " has an invalid feature flag: " ++
              (routeXyz.dataGet cfgA.keys.featureFlag).toJSString)) ∧
        (canMatchFeatureFlag cfgA isBeta (svcBool true) idUrl false
            routeXyz).2 = []) :=
  ⟨by decide, by decide,
    invalidFlag_configError_before_service cfgA isBeta (svcBool true) idUrl
      false routeXyz (by decide) (by decide)⟩

/-- C4: for every route with a valid feature flag where neither the
per-route redirect metadata value nor the configuration-level default is
truthy, the guard returns the flag service's result exactly as received:
`passThrough` is the identity injection of the service result into
decisions, preserving both the boolean value and the synchronicity class
(boolean / Promise / Observable), as the three spelled-out conjuncts
state. -/
theorem validFlag_noRedirect_identity (cfg : RoutingConfig)
    (isFF : JSValue → Bool) (svc : JSValue → IsEnabledResult)
    (parseUrl : JSValue → UrlTree) (dev : Bool) (route : Route)
    (ht : (route.dataGet cfg.keys.featureFlag).truthy = true)
    (hv : isFF (route.dataGet cfg.keys.featureFlag) = true)
    (hr : ((route.dataGet cfg.keys.redirectToIfDisabled).jsOr
        cfg.redirectToIfDisabled).truthy = false) :
    (canMatchFeatureFlag cfg isFF svc parseUrl dev route).1
        = .ok (passThrough (svc (route.dataGet cfg.keys.featureFlag))) ∧
      (∀ b, svc (route.dataGet cfg.keys.featureFlag) = .bool b →
        (canMatchFeatureFlag cfg isFF svc parseUrl dev route).1
          = .ok (.now (.bool b))) ∧
      (∀ b, svc (route.dataGet cfg.keys.featureFlag) = .promise b →
        (canMatchFeatureFlag cfg isFF svc parseUrl dev route).1
          = .ok (.promise (.bool b))) ∧
      (∀ b, svc (route.dataGet cfg.keys.featureFlag) = .observable b →
        (canMatchFeatureFlag cfg isFF svc parseUrl dev route).1
          = .ok (.observable (.bool b))) := by
  have hmain : (canMatchFeatureFlag cfg isFF svc parseUrl dev route).1
      = .ok (passThrough (svc (route.dataGet cfg.keys.featureFlag))) := by
    simp [canMatchFeatureFlag, ht, hv, hr]
  refine ⟨hmain, ?_, ?_, ?_⟩ <;> intro b hb <;> rw [hmain, hb] <;> rfl

/-- Witness for C4: route `"beta-page"` with the valid flag, no redirect
anywhere, service returning boolean `false` (concrete scenario C of the
spec). -/
theorem validFlag_noRedirect_identity_w :
    (routeBeta.dataGet cfgA.keys.featureFlag).truthy = true ∧
      isBeta (routeBeta.dataGet cfgA.keys.featureFlag) = true ∧
      ((routeBeta.dataGet cfgA.keys.redirectToIfDisabled).jsOr
          cfgA.redirectToIfDisabled).truthy = false ∧
      (canMatchFeatureFlag cfgA isBeta (svcBool false) idUrl false
          routeBeta).1
        = .ok (passThrough (svcBool false
            (routeBeta.dataGet cfgA.keys.featureFlag))) :=
  ⟨by decide, by decide, by decide,
    (validFlag_noRedirect_identity cfgA isBeta (svcBool false) idUrl false
      routeBeta (by decide) (by decide) (by decide)).1⟩

/-- C3 counterexample: with a valid flag (`"beta"`), NO redirect
configured anywhere, and the service returning the out-of-contract value
`"boom"`, the guard does not throw `UnhandledResultTypeError` — it
returns the raw value `"boom"` as the decision (`Decision.raw`). This
refutes the claim's "regardless of whether a redirect target is
configured": the source checks the result's shape only after the
redirect check, and returns `isEnabled` untouched when no redirect is
configured. -/
theorem unhandledResult_noRedirect_passes_raw_cex :
    canMatchFeatureFlag cfgA isBeta svcOtherBoom idUrl false routeBeta
      = (.ok (.raw (.str "boom")), [.isEnabledCall (.str "beta")]) := rfl

/-- C3 amended: for every route with a valid feature flag whose
`isEnabled` result is out of contract (neither boolean, nor Promise,
nor Observable), the guard throws `UnhandledResultTypeError` when a
redirect target is configured; when no redirect is configured it instead
returns the out-of-contract value unchanged as the decision. -/
theorem unhandledResult_redirect_dependent (cfg : RoutingConfig)
    (isFF : JSValue → Bool) (svc : JSValue → IsEnabledResult)
    (parseUrl : JSValue → UrlTree) (dev : Bool) (route : Route)
    (w : JSValue)
    (ht : (route.dataGet cfg.keys.featureFlag).truthy = true)
    (hv : isFF (route.dataGet cfg.keys.featureFlag) = true)
    (hw : svc (route.dataGet cfg.keys.featureFlag) = .other w) :
    (((route.dataGet cfg.keys.redirectToIfDisabled).jsOr
          cfg.redirectToIfDisabled).truthy = true →
        (canMatchFeatureFlag cfg isFF svc parseUrl dev route).1
          = .error (.unhandledError
            "Unhandled return type of `FeatureFlagService#isEnabled`")) ∧
      (((route.dataGet cfg.keys.redirectToIfDisabled).jsOr
          cfg.redirectToIfDisabled).truthy = false →
        (canMatchFeatureFlag cfg isFF svc parseUrl dev route).1
          = .ok (.raw w)) := by
  constructor <;> intro hr <;>
    simp [canMatchFeatureFlag, ht, hv, hr, hw, passThrough]

/-- Witness for the amended C3: valid flag, per-route redirect
configured, service returning the string `"boom"`. -/
theorem unhandledResult_redirect_dependent_w :
    (routeBetaRedirect.dataGet cfgA.keys.featureFlag).truthy = true ∧
      isBeta (routeBetaRedirect.dataGet cfgA.keys.featureFlag) = true ∧
      svcOtherBoom (routeBetaRedirect.dataGet cfgA.keys.featureFlag)
        = .other (.str "boom") ∧
      (((routeBetaRedirect.dataGet cfgA.keys.redirectToIfDisabled).jsOr
          cfgA.redirectToIfDisabled).truthy = true →
        (canMatchFeatureFlag cfgA isBeta svcOtherBoom idUrl false
            routeBetaRedirect).1
          = .error (.unhandledError
            "Unhandled return type of `FeatureFlagService#isEnabled`")) :=
  ⟨by decide, by decide, by decide,
    (unhandledResult_redirect_dependent cfgA isBeta svcOtherBoom idUrl false
      routeBetaRedirect (.str "boom") (by decide) (by decide)
      (by decide)).1⟩

/-- C5: for every route with a valid feature flag, a configured redirect
target, and an `isEnabled` result that is / resolves to / emits `false`,
the decision is (in the same synchronicity class) the `UrlTree` produced
by the router's `parseUrl` applied to the redirect target; the final
conjunct shows the target is the per-route value whenever that value is
truthy (precedence over the configuration-level default). -/
theorem disabledFlag_redirect_decision (cfg : RoutingConfig)
    (isFF : JSValue → Bool) (svc : JSValue → IsEnabledResult)
    (parseUrl : JSValue → UrlTree) (dev : Bool) (route : Route)
    (ht : (route.dataGet cfg.keys.featureFlag).truthy = true)
    (hv : isFF (route.dataGet cfg.keys.featureFlag) = true)
    (hr : ((route.dataGet cfg.keys.redirectToIfDisabled).jsOr
        cfg.redirectToIfDisabled).truthy = true) :
    (svc (route.dataGet cfg.keys.featureFlag) = .bool false →
        (canMatchFeatureFlag cfg isFF svc parseUrl dev route).1
          = .ok (.now (.url (parseUrl
              ((route.dataGet cfg.keys.redirectToIfDisabled).jsOr
                cfg.redirectToIfDisabled))))) ∧
      (svc (route.dataGet cfg.keys.featureFlag) = .promise false →
        (canMatchFeatureFlag cfg isFF svc parseUrl dev route).1
          = .ok (.promise (.url (parseUrl
              ((route.dataGet cfg.keys.redirectToIfDisabled).jsOr
                cfg.redirectToIfDisabled))))) ∧
      (svc (route.dataGet cfg.keys.featureFlag) = .observable false →
        (canMatchFeatureFlag cfg isFF svc parseUrl dev route).1
          = .ok (.observable (.url (parseUrl
              ((route.dataGet cfg.keys.redirectToIfDisabled).jsOr
                cfg.redirectToIfDisabled))))) ∧
      ((route.dataGet cfg.keys.redirectToIfDisabled).truthy = true →
        (route.dataGet cfg.keys.redirectToIfDisabled).jsOr
            cfg.redirectToIfDisabled
          = route.dataGet cfg.keys.redirectToIfDisabled) := by
  refine ⟨?_, ?_, ?_, ?_⟩
  · intro hb; simp [canMatchFeatureFlag, ht, hv, hr, hb, orRedirect]
  · intro hb; simp [canMatchFeatureFlag, ht, hv, hr, hb, orRedirect]
  · intro hb; simp [canMatchFeatureFlag, ht, hv, hr, hb, orRedirect]
  · intro hp; simp [JSValue.jsOr, hp]

/-- Witness for C5: route with flag `"beta"` and per-route redirect
`"/upgrade"`, service returning a Promise of `false` (concrete scenario
D of the spec). -/
theorem disabledFlag_redirect_decision_w :
    (routeBetaRedirect.dataGet cfgA.keys.featureFlag).truthy = true ∧
      isBeta (routeBetaRedirect.dataGet cfgA.keys.featureFlag) = true ∧
      ((routeBetaRedirect.dataGet cfgA.keys.redirectToIfDisabled).jsOr
          cfgA.redirectToIfDisabled).truthy = true ∧
      (svcPromise false (routeBetaRedirect.dataGet cfgA.keys.featureFlag)
          = .promise false →
        (canMatchFeatureFlag cfgA isBeta (svcPromise false) idUrl false
            routeBetaRedirect).1
          = .ok (.promise (.url (idUrl
              ((routeBetaRedirect.dataGet
                  cfgA.keys.redirectToIfDisabled).jsOr
                cfgA.redirectToIfDisabled))))) :=
  ⟨by decide, by decide, by decide,
    (disabledFlag_redirect_decision cfgA isBeta (svcPromise false) idUrl
      false routeBetaRedirect (by decide) (by decide) (by decide)).2.1⟩

/-- C6: for every route with a valid feature flag, a configured redirect
target, and an `isEnabled` result that is / resolves to / emits `true`,
the decision is (in the same synchronicity class) the boolean `true` —
the redirect target is never substituted when the flag is enabled. -/
theorem enabledFlag_redirect_true (cfg : RoutingConfig)
    (isFF : JSValue → Bool) (svc : JSValue → IsEnabledResult)
    (parseUrl : JSValue → UrlTree) (dev : Bool) (route : Route)
    (ht : (route.dataGet cfg.keys.featureFlag).truthy = true)
    (hv : isFF (route.dataGet cfg.keys.featureFlag) = true)
    (hr : ((route.dataGet cfg.keys.redirectToIfDisabled).jsOr
        cfg.redirectToIfDisabled).truthy = true) :
    (svc (route.dataGet cfg.keys.featureFlag) = .bool true →
        (canMatchFeatureFlag cfg isFF svc parseUrl dev route).1
          = .ok (.now (.bool true))) ∧
      (svc (route.dataGet cfg.keys.featureFlag) = .promise true →
        (canMatchFeatureFlag cfg isFF svc parseUrl dev route).1
          = .ok (.promise (.bool true))) ∧
      (svc (route.dataGet cfg.keys.featureFlag) = .observable true →
        (canMatchFeatureFlag cfg isFF svc parseUrl dev route).1
          = .ok (.observable (.bool true))) := by
  refine ⟨?_, ?_, ?_⟩ <;> intro hb <;>
    simp [canMatchFeatureFlag, ht, hv, hr, hb, orRedirect]

/-- Witness for C6: route with flag `"beta"` and per-route redirect,
service returning boolean `true`. -/
theorem enabledFlag_redirect_true_w :
    (routeBetaRedirect.dataGet cfgA.keys.featureFlag).truthy = true ∧
      isBeta (routeBetaRedirect.dataGet cfgA.keys.featureFlag) = true ∧
      ((routeBetaRedirect.dataGet cfgA.keys.redirectToIfDisabled).jsOr
          cfgA.redirectToIfDisabled).truthy = true ∧
      (svcBool true (routeBetaRedirect.dataGet cfgA.keys.featureFlag)
          = .bool true →
        (canMatchFeatureFlag cfgA isBeta (svcBool true) idUrl false
            routeBetaRedirect).1 = .ok (.now (.bool true))) :=
  ⟨by decide, by decide, by decide,
    (enabledFlag_redirect_true cfgA isBeta (svcBool true) idUrl false
      routeBetaRedirect (by decide) (by decide) (by decide)).1⟩

/-- C7: the diagnostic warning is emitted iff the invocation is in a
development-mode build, the route's feature-flag metadata value is
falsy, and `validIfNone` is false (so never in production builds); and
the returned decision is identical between the two runs that differ
only in build mode — the warning never affects the decision. -/
theorem warn_iff_dev_noFlag_invalidNone (cfg : RoutingConfig)
    (isFF : JSValue → Bool) (svc : JSValue → IsEnabledResult)
    (parseUrl : JSValue → UrlTree) (dev : Bool) (route : Route) :
    ((canMatchFeatureFlag cfg isFF svc parseUrl dev route).2.any
          Event.isWarn
        = (dev && !(route.dataGet cfg.keys.featureFlag).truthy &&
            !cfg.validIfNone)) ∧
      (canMatchFeatureFlag cfg isFF svc parseUrl true route).1
        = (canMatchFeatureFlag cfg isFF svc parseUrl false route).1 := by
  constructor
  · cases h : (route.dataGet cfg.keys.featureFlag).truthy
    · cases dev <;> cases hb : cfg.validIfNone <;>
        simp [canMatchFeatureFlag, h, hb, Event.isWarn]
    · cases hf : isFF (route.dataGet cfg.keys.featureFlag)
      · simp [canMatchFeatureFlag, h, hf]
      · cases hr : ((route.dataGet cfg.keys.redirectToIfDisabled).jsOr
            cfg.redirectToIfDisabled).truthy <;>
          cases hsvc : svc (route.dataGet cfg.keys.featureFlag) <;>
            simp [canMatchFeatureFlag, h, hf, hr, hsvc, Event.isWarn]
  · cases h : (route.dataGet cfg.keys.featureFlag).truthy <;>
      simp [canMatchFeatureFlag, h]

/-- C8: in every invocation, no diagnostic warning occurs at or after a
flag-service call in the effect trace — equivalently, whenever the log
is emitted it happens strictly before any `isEnabled` call of that
invocation (in this code the log is only ever emitted in the branch
that performs no service call at all). -/
theorem warn_strictly_precedes_service (cfg : RoutingConfig)
    (isFF : JSValue → Bool) (svc : JSValue → IsEnabledResult)
    (parseUrl : JSValue → UrlTree) (dev : Bool) (route : Route) :
    noWarnAfterServiceCall
      (canMatchFeatureFlag cfg isFF svc parseUrl dev route).2 = true := by
  cases h : (route.dataGet cfg.keys.featureFlag).truthy
  · simp only [canMatchFeatureFlag, h, Bool.not_false, if_true]
    split <;> rfl
  · cases hf : isFF (route.dataGet cfg.keys.featureFlag)
    · simp [canMatchFeatureFlag, h, hf, noWarnAfterServiceCall]
    · cases hr : ((route.dataGet cfg.keys.redirectToIfDisabled).jsOr
          cfg.redirectToIfDisabled).truthy <;>
        cases hsvc : svc (route.dataGet cfg.keys.featureFlag) <;>
          simp [canMatchFeatureFlag, h, hf, hr, hsvc,
            noWarnAfterServiceCall, Event.isWarn]

/-- C9: for every route with a valid feature flag and a configured
redirect target, the effect trace contains exactly one `parseUrl` call,
on that target — for every flag-service behaviour, including results
that are (or resolve to) `true`, for which the parsed URL is never used
as the decision. The trace records synchronous program order, so the
call happens during the guard invocation itself. -/
theorem parseUrl_called_exactly_once (cfg : RoutingConfig)
    (isFF : JSValue → Bool) (svc : JSValue → IsEnabledResult)
    (parseUrl : JSValue → UrlTree) (dev : Bool) (route : Route)
    (ht : (route.dataGet cfg.keys.featureFlag).truthy = true)
    (hv : isFF (route.dataGet cfg.keys.featureFlag) = true)
    (hr : ((route.dataGet cfg.keys.redirectToIfDisabled).jsOr
        cfg.redirectToIfDisabled).truthy = true) :
    (canMatchFeatureFlag cfg isFF svc parseUrl dev route).2.filter
        Event.isParseUrl
      = [Event.parseUrlCall
          ((route.dataGet cfg.keys.redirectToIfDisabled).jsOr
            cfg.redirectToIfDisabled)] := by
  cases hsvc : svc (route.dataGet cfg.keys.featureFlag) <;>
    simp [canMatchFeatureFlag, ht, hv, hr, hsvc, Event.isParseUrl,
      List.filter]

/-- Witness for C9: redirect configured and the service returning
boolean `true` — the parsed URL is unused, yet `parseUrl` is called
exactly once. -/
theorem parseUrl_called_exactly_once_w :
    (routeBetaRedirect.dataGet cfgA.keys.featureFlag).truthy = true ∧
      isBeta (routeBetaRedirect.dataGet cfgA.keys.featureFlag) = true ∧
      ((routeBetaRedirect.dataGet cfgA.keys.redirectToIfDisabled).jsOr
          cfgA.redirectToIfDisabled).truthy = true ∧
      (canMatchFeatureFlag cfgA isBeta (svcBool true) idUrl false
          routeBetaRedirect).2.filter Event.isParseUrl
        = [Event.parseUrlCall
            ((routeBetaRedirect.dataGet
                cfgA.keys.redirectToIfDisabled).jsOr
              cfgA.redirectToIfDisabled)] :=
  ⟨by decide, by decide, by decide,
    parseUrl_called_exactly_once cfgA isBeta (svcBool true) idUrl false
      routeBetaRedirect (by decide) (by decide) (by decide)⟩

/-- C10: for every route whose feature-flag metadata value is truthy,
the guard's entire outcome — decision or thrown error, and even the
effect trace — is unchanged when `config.routing.validIfNone` is
replaced by any other value: `validIfNone` influences the result only
in the no-flag branch. -/
theorem validIfNone_noninterference (cfg : RoutingConfig) (v : Bool)
    (isFF : JSValue → Bool) (svc : JSValue → IsEnabledResult)
    (parseUrl : JSValue → UrlTree) (dev : Bool) (route : Route)
    (ht : (route.dataGet cfg.keys.featureFlag).truthy = true) :
    canMatchFeatureFlag ⟨cfg.keys, v, cfg.redirectToIfDisabled⟩ isFF svc
        parseUrl dev route
      = canMatchFeatureFlag cfg isFF svc parseUrl dev route := by
  simp [canMatchFeatureFlag, ht]

/-- Witness for C10: flipping `validIfNone` of `cfgA` (true) to `false`
leaves the outcome on the `"beta"` route unchanged. -/
theorem validIfNone_noninterference_w :
    (routeBeta.dataGet cfgA.keys.featureFlag).truthy = true ∧
      canMatchFeatureFlag ⟨cfgA.keys, false, cfgA.redirectToIfDisabled⟩
          isBeta (svcBool true) idUrl false routeBeta
        = canMatchFeatureFlag cfgA isBeta (svcBool true) idUrl false
            routeBeta :=
  ⟨by decide,
    validIfNone_noninterference cfgA false isBeta (svcBool true) idUrl false
      routeBeta (by decide)⟩

end NgxFlagr
